import Mathlib

/-!
Verification of the shared agent-runtime adapter of the repository
(`shared/agents.py`: classes `BaseClaudeAgent` and `InteractiveAgent`).

The Python code is shallowly embedded: each method becomes a Lean
function; the mutable object state (`agent_config`, `client`,
`is_connected`) becomes an explicit `AgentState` record threaded through
the operations; calls into the opaque SDK client (`client.connect`,
`client.disconnect`) are recorded in event counters so that "invoked
exactly once" properties can be stated; an exception raised by the SDK
handshake is modelled by an `Option AgentErr` result component, with the
post-exception object state kept alongside (in Python the object survives
the propagated exception).

A Python `dict` loaded from `config.yaml` is embedded as `AgentConfig`, a
record of optional fields, one per key the adapter reads; `none` models an
absent key.  Crucially, `dict.get('allowed_tools', [])` returns the list
object stored in the dict, and the subsequent in-place `append` calls
mutate that stored list; the embedding reproduces this by updating the
`allowed_tools` field of the stored configuration whenever the key is
present.
-/

/-- An SDK MCP tool (the adapter only reads its `name` attribute). -/
structure SdkMcpTool where
  name : String
deriving DecidableEq, Repr

/-- The value built by `create_sdk_mcp_server(name=..., version=..., tools=...)`. -/
structure SdkMcpServer where
  name : String
  version : String
  tools : List SdkMcpTool
deriving DecidableEq, Repr

/-- The `ClaudeAgentOptions` value object built by `get_agent_options`. -/
structure ClaudeAgentOptions where
  system_prompt : Option String
  allowed_tools : List String
  mcp_servers : List (String × SdkMcpServer)
  max_turns : Option Nat
  cwd : String
  model : Option String
  permission_mode : String
deriving DecidableEq, Repr

/-- The agent configuration dictionary loaded from `config.yaml`.
Each field models one key the adapter reads with `dict.get`; `none`
models an absent key. -/
structure AgentConfig where
  name : Option String := none
  version : Option String := none
  description : Option String := none
  system_prompt : Option String := none
  allowed_tools : Option (List String) := none
  max_turns : Option Nat := none
  model : Option String := none
  permission_mode : Option String := none
deriving DecidableEq, Repr

/-- The empty configuration mapping (a `dict` with none of the
recognized keys). -/
def emptyAgentConfig : AgentConfig := {}

/-- The opaque `ClaudeSDKClient`, constructed from options. -/
structure ClaudeSDKClient where
  options : ClaudeAgentOptions
deriving DecidableEq, Repr

/-- The mutable state of a `BaseClaudeAgent` instance, plus event
counters instrumenting the calls made into the opaque SDK client:
`handshakes` counts invocations of `client.connect()`, `teardowns`
counts invocations of `client.disconnect()`, and `disconnect_calls`
counts invocations of the agent method `disconnect()` itself. -/
structure AgentState where
  config_dir : String
  agent_config : AgentConfig
  custom_tools : List SdkMcpTool
  client : Option ClaudeSDKClient
  is_connected : Bool
  handshakes : Nat
  teardowns : Nat
  disconnect_calls : Nat
deriving DecidableEq, Repr

/-- `BaseClaudeAgent._load_agent_config`: the outer `Option` models
whether `config.yaml` exists, the inner one whether `yaml.safe_load`
returned a mapping (`some`) or `None` (`none`, absorbed by `or {}`). -/
def _load_agent_config (file : Option (Option AgentConfig)) : AgentConfig :=
  match file with
  | none => {}
  | some none => {}
  | some (some cfg) => cfg

/-- `BaseClaudeAgent.__init__`: loads the configuration and starts with
no client and the connected flag cleared.  `tools` stands for the
(possibly overridden) result of `get_custom_tools`, fixed per agent. -/
def initAgent (config_dir : String) (file : Option (Option AgentConfig))
    (tools : List SdkMcpTool) : AgentState :=
  { config_dir := config_dir
    agent_config := _load_agent_config file
    custom_tools := tools
    client := none
    is_connected := false
    handshakes := 0
    teardowns := 0
    disconnect_calls := 0 }

/-- `BaseClaudeAgent.get_system_prompt` (default implementation):
`self.agent_config.get('system_prompt')`. -/
def get_system_prompt (a : AgentState) : Option String :=
  a.agent_config.system_prompt

/-- The qualified invocation identifier the code appends for a custom
tool: `f"mcp__agent_tools__{tool_obj.name}"`. -/
def qualifiedToolName (t : SdkMcpTool) : String :=
  "mcp__agent_tools__" ++ t.name

/-- `BaseClaudeAgent.get_agent_options`.  Returns the constructed
options together with the agent state after the call: because
`self.agent_config.get('allowed_tools', [])` aliases the list stored in
the configuration dict, the in-place `append` of each qualified tool
name also mutates the stored configuration whenever the
`allowed_tools` key is present (when the key is absent the default `[]`
is a fresh list and the configuration is untouched). -/
def get_agent_options (a : AgentState) : ClaudeAgentOptions × AgentState :=
  let custom_tools := a.custom_tools
  let mcp_servers : List (String × SdkMcpServer) :=
    if custom_tools.isEmpty then []
    else
      [("agent_tools",
        { name := a.agent_config.name.getD "agent-tools"
          version := a.agent_config.version.getD "1.0.0"
          tools := custom_tools })]
  let appended := custom_tools.map qualifiedToolName
  let base := a.agent_config.allowed_tools.getD []
  let allowed_tools := if custom_tools.isEmpty then base else base ++ appended
  let agent_config' :=
    { a.agent_config with
      allowed_tools := a.agent_config.allowed_tools.map
        (fun l => if custom_tools.isEmpty then l else l ++ appended) }
  (⟨get_system_prompt a,
    allowed_tools,
    mcp_servers,
    a.agent_config.max_turns,
    a.config_dir,
    a.agent_config.model,
    a.agent_config.permission_mode.getD "default"⟩,
   { a with agent_config := agent_config' })

/-- Modelled from the spec (claim wording, not the source): the
qualified identifier the specification prescribes, namely the tool name
qualified by the tool-server name derived from the agent's
configuration, falling back to the fixed default identifier
`agent-tools` when the configuration sets no name. -/
def specQualifiedName (cfg : AgentConfig) (t : SdkMcpTool) : String :=
  "mcp__" ++ cfg.name.getD "agent-tools" ++ "__" ++ t.name

/-- An exception escaping an adapter method: the SDK handshake raised
inside `connect`, or an attribute access on a `None` client. -/
inductive AgentErr where
  | connectFailed
  | nullClient
deriving DecidableEq, Repr

/-- `BaseClaudeAgent.connect`.  The flag `ok` models whether the opaque
SDK handshake `await self.client.connect()` succeeds; when it raises,
the exception propagates (`some .connectFailed`) while the object keeps
the state mutated so far (the client field is already assigned, the
handshake was attempted, the connected flag was never set). -/
def connect (ok : Bool) (a : AgentState) : AgentState × Option AgentErr :=
  if a.is_connected then (a, none)
  else
    let p := get_agent_options a
    let a₂ := { p.2 with client := some ⟨p.1⟩, handshakes := p.2.handshakes + 1 }
    if ok then ({ a₂ with is_connected := true }, none)
    else (a₂, some .connectFailed)

/-- `BaseClaudeAgent.disconnect`: tears the session down only when both
the client field is set and the connected flag is up (`if self.client
and self.is_connected:`); the client field itself is never cleared. -/
def disconnect (a : AgentState) : AgentState :=
  let a₀ := { a with disconnect_calls := a.disconnect_calls + 1 }
  if a₀.client.isSome && a₀.is_connected then
    { a₀ with teardowns := a₀.teardowns + 1, is_connected := false }
  else a₀

/-- A content block of an `AssistantMessage`. -/
inductive ContentBlock where
  | text (s : String)
  | toolUse (name : String) (input : String)
  | toolResult (s : String)
deriving DecidableEq, Repr

/-- A message yielded by the SDK response stream. -/
inductive Message where
  | assistant (content : List ContentBlock)
  | user (content : List ContentBlock)
  | result (total_cost_usd : Option Nat) (duration_ms : Option Nat)
deriving DecidableEq, Repr

/-- `BaseClaudeAgent.query`: connects first when the flag is down, then
sends the prompt through `self.client` and forwards the stream produced
by `client.receive_response()` (the stream is opaque SDK output, so it
is a parameter).  An access on a `None` client is the `nullClient`
error. -/
def query (ok : Bool) (stream : List Message) (_prompt : String) (a : AgentState) :
    AgentState × Except AgentErr (List Message) :=
  let p := if a.is_connected then (a, none) else connect ok a
  match p.2 with
  | some e => (p.1, .error e)
  | none =>
    match p.1.client with
    | none => (p.1, .error .nullClient)
    | some _ => (p.1, .ok stream)

/-- The inner loop body of `process_message`: append the text of a
`TextBlock` to `response_parts`, skip every other block kind. -/
def collectText (acc : List String) (b : ContentBlock) : List String :=
  match b with
  | .text s => acc ++ [s]
  | _ => acc

/-- The outer loop body of `process_message`: from an
`AssistantMessage`, collect the texts of its blocks; skip every other
message kind. -/
def collectAssistant (acc : List String) (m : Message) : List String :=
  match m with
  | .assistant blocks => blocks.foldl collectText acc
  | _ => acc

/-- The text of a content block, when it is a `TextBlock`. -/
def textOf (b : ContentBlock) : Option String :=
  match b with
  | .text s => some s
  | _ => none

/-- The texts of the text blocks of one message (empty unless it is an
`AssistantMessage`). -/
def messageTexts (m : Message) : List String :=
  match m with
  | .assistant blocks => blocks.filterMap textOf
  | _ => []

/-- The text blocks of the assistant messages of a stream, in stream
order (used to state what `process_message` returns). -/
def assistantTexts (msgs : List Message) : List String :=
  msgs.flatMap messageTexts

/-- `BaseClaudeAgent.process_message`: drains `query`, accumulating the
text of every `TextBlock` of every `AssistantMessage` into
`response_parts`, and returns them joined by newlines. -/
def process_message (ok : Bool) (stream : List Message) (message : String)
    (a : AgentState) : AgentState × Except AgentErr String :=
  match query ok stream message a with
  | (a₁, .error e) => (a₁, .error e)
  | (a₁, .ok msgs) =>
      let response_parts := msgs.foldl collectAssistant []
      (a₁, .ok (String.intercalate "\n" response_parts))

/-- How the body of the `async with` bracket finished. -/
inductive BodyOutcome where
  | normal
  | raised
deriving DecidableEq, Repr

/-- The `async with self:` bracket: `__aenter__` runs `connect`; when it
raises, the body and `__aexit__` never run and the exception
propagates.  Otherwise the body runs (an arbitrary state transformer
that reports whether it returned normally or raised) and `__aexit__`
runs `disconnect` exactly once in either case, after which a raising
body's exception propagates. -/
def withBracket (ok : Bool) (body : AgentState → AgentState × BodyOutcome)
    (a : AgentState) : AgentState × Option AgentErr × BodyOutcome :=
  match connect ok a with
  | (a₁, some e) => (a₁, some e, .raised)
  | (a₁, none) =>
      let q := body a₁
      (disconnect q.1, none, q.2)

/-- The sentinel strings of the interactive loop. -/
def sentinels : List String := ["quit", "exit", "bye", "goodbye"]

/-- Python `str.strip()`: drop leading and trailing whitespace. -/
def pyStrip (s : String) : String :=
  String.mk (((s.data.dropWhile Char.isWhitespace).reverse.dropWhile
    Char.isWhitespace).reverse)

/-- Python `str.lower()` on the relevant (ASCII) inputs. -/
def pyLower (s : String) : String :=
  String.mk (s.data.map Char.toLower)

/-- How one run of the interactive loop ended. -/
inductive LoopExit where
  | sentinel
  | inputsExhausted
deriving DecidableEq, Repr

/-- The `while True:` body of `InteractiveAgent.run_interactive`,
driven by a finite list of input lines (`input()` reads the next one;
an exhausted list ends the run).  Each line is stripped; a sentinel
match breaks out of the loop, an empty stripped line continues, and any
other line issues one `query` call (counted in `queries`). -/
def run_loop : List String → Nat → Nat × LoopExit
  | [], queries => (queries, .inputsExhausted)
  | line :: rest, queries =>
      let user_input := pyStrip line
      if pyLower user_input ∈ sentinels then (queries, .sentinel)
      else if user_input = "" then run_loop rest queries
      else run_loop rest (queries + 1)

/-- The connection-flag/client invariant: whenever the connected flag
is up, the client field is set. -/
def ConnInv (a : AgentState) : Prop :=
  a.is_connected = true → a.client.isSome

instance (a : AgentState) : Decidable (ConnInv a) := by
  unfold ConnInv; infer_instance

/-- A concrete agent: configured server name `my-server`, statically
configured allowed tools `["Read"]`, one custom tool `t`. -/
def exampleAgent : AgentState :=
  initAgent "/agents/example"
    (some (some { name := some "my-server", allowed_tools := some ["Read"] }))
    [⟨"t"⟩]

/-- A concrete agent that has successfully connected. -/
def connectedAgent : AgentState :=
  (connect true (initAgent "/agents/example" none [])).1

/-! ### Helper lemmas -/

@[simp]
theorem get_agent_options_is_connected (a : AgentState) :
    (get_agent_options a).2.is_connected = a.is_connected := rfl

@[simp]
theorem get_agent_options_client (a : AgentState) :
    (get_agent_options a).2.client = a.client := rfl

@[simp]
theorem get_agent_options_handshakes (a : AgentState) :
    (get_agent_options a).2.handshakes = a.handshakes := rfl

@[simp]
theorem get_agent_options_teardowns (a : AgentState) :
    (get_agent_options a).2.teardowns = a.teardowns := rfl

@[simp]
theorem get_agent_options_disconnect_calls (a : AgentState) :
    (get_agent_options a).2.disconnect_calls = a.disconnect_calls := rfl

theorem connect_true_no_error (a : AgentState) : (connect true a).2 = none := by
  unfold connect
  by_cases h : a.is_connected <;> simp [h]

theorem connect_true_is_connected (a : AgentState) (h : a.is_connected = true) :
    (connect true a).1 = a := by
  unfold connect
  simp [h]

theorem connect_inv (ok : Bool) (a : AgentState) (ha : ConnInv a) :
    ConnInv (connect ok a).1 := by
  unfold connect
  by_cases h : a.is_connected
  · simpa [h] using ha
  · cases ok <;> simp [h, ConnInv]

theorem connect_flag_of_ok (a : AgentState) (ha : ConnInv a) :
    (connect true a).1.is_connected = true ∧ (connect true a).1.client.isSome := by
  unfold connect
  by_cases h : a.is_connected
  · simp [h, ha h]
  · simp [h]

theorem disconnect_calls_succ (a : AgentState) :
    (disconnect a).disconnect_calls = a.disconnect_calls + 1 := by
  unfold disconnect
  by_cases h : a.client.isSome && a.is_connected <;> simp [h]

theorem disconnect_flag (a : AgentState) (ha : ConnInv a) :
    (disconnect a).is_connected = false := by
  unfold disconnect
  by_cases h : a.is_connected
  · simp [ha h, h]
  · simp [Bool.eq_false_iff.mpr h, h]

theorem disconnect_inv (a : AgentState) (ha : ConnInv a) : ConnInv (disconnect a) := by
  intro h
  exact absurd h (by simp [disconnect_flag a ha])

theorem query_state (ok : Bool) (stream : List Message) (m : String) (a : AgentState) :
    (query ok stream m a).1 = (if a.is_connected then a else (connect ok a).1) := by
  unfold query
  by_cases h : a.is_connected
  · simp only [h, if_true]
    cases hc : a.client <;> simp [hc]
  · simp only [h]
    rcases hc : connect ok a with ⟨a₁, e⟩
    cases e with
    | none => cases hcl : a₁.client <;> simp [hcl]
    | some err => simp

theorem query_inv (ok : Bool) (stream : List Message) (m : String) (a : AgentState)
    (ha : ConnInv a) : ConnInv (query ok stream m a).1 := by
  rw [query_state]
  by_cases h : a.is_connected
  · simpa [h] using ha
  · simpa [h] using connect_inv ok a ha

theorem query_of_connected (ok : Bool) (stream : List Message) (m : String)
    (a : AgentState) (h : a.is_connected = true) (hc : a.client.isSome) :
    query ok stream m a = (a, .ok stream) := by
  unfold query
  rcases hcl : a.client with _ | c
  · simp [hcl] at hc
  · simp [h, hcl]

theorem foldl_collectText (blocks : List ContentBlock) (acc : List String) :
    blocks.foldl collectText acc = acc ++ blocks.filterMap textOf := by
  induction blocks generalizing acc with
  | nil => simp
  | cons b rest ih =>
      cases b <;> simp [List.foldl_cons, List.filterMap_cons, collectText, textOf, ih]

theorem collectAssistant_eq (acc : List String) (m : Message) :
    collectAssistant acc m = acc ++ messageTexts m := by
  cases m <;> simp [collectAssistant, messageTexts, foldl_collectText]

theorem foldl_collectAssistant (msgs : List Message) (acc : List String) :
    msgs.foldl collectAssistant acc = acc ++ assistantTexts msgs := by
  induction msgs generalizing acc with
  | nil => simp [assistantTexts]
  | cons m rest ih =>
      rw [List.foldl_cons, collectAssistant_eq, ih]
      simp [assistantTexts, List.flatMap_cons]

theorem process_message_inv (ok : Bool) (stream : List Message) (m : String)
    (a : AgentState) (ha : ConnInv a) : ConnInv (process_message ok stream m a).1 := by
  unfold process_message
  rcases hq : query ok stream m a with ⟨a₁, r⟩
  have h₁ : ConnInv a₁ := by
    have := query_inv ok stream m a ha
    rwa [hq] at this
  cases r <;> simpa using h₁


theorem connect_already (ok : Bool) (a : AgentState) (h : a.is_connected = true) :
    connect ok a = (a, none) := by
  unfold connect
  simp [h]

theorem process_message_of_connected (ok : Bool) (stream : List Message) (m : String)
    (a : AgentState) (h : a.is_connected = true) (hc : a.client.isSome) :
    process_message ok stream m a
      = (a, .ok (String.intercalate "\n" (assistantTexts stream))) := by
  unfold process_message
  rw [query_of_connected ok stream m a h hc]
  simp [foldl_collectAssistant]

theorem withBracket_inv (ok : Bool) (body : AgentState → AgentState × BodyOutcome)
    (a : AgentState) (ha : ConnInv a) (hb : ∀ s, ConnInv s → ConnInv (body s).1) :
    ConnInv (withBracket ok body a).1 := by
  unfold withBracket
  rcases hconn : connect ok a with ⟨a₁, e⟩
  have h₁ : ConnInv a₁ := by
    have := connect_inv ok a ha
    rwa [hconn] at this
  cases e with
  | none => simpa using disconnect_inv _ (hb a₁ h₁)
  | some err => simpa using h₁

/-! ### Claim theorems -/

/-- C7: constructing an agent whose configuration directory has no
`config.yaml` does not raise and yields the empty configuration
mapping, and likewise when the file exists but parses to null. -/
theorem C7_missing_config_empty :
    (∀ dir tools, (initAgent dir none tools).agent_config = emptyAgentConfig) ∧
    (∀ dir tools, (initAgent dir (some none) tools).agent_config = emptyAgentConfig) :=
  ⟨fun _ _ => rfl, fun _ _ => rfl⟩

/-- C3: on a not-yet-connected agent, `connect` succeeds performing
exactly one handshake, and an immediately following second `connect` is
a no-op returning the very same state with no further handshake. -/
theorem C3_connect_twice (a : AgentState) (h : a.is_connected = false) :
    (connect true a).2 = none ∧
    (connect true a).1.handshakes = a.handshakes + 1 ∧
    connect true (connect true a).1 = ((connect true a).1, none) := by
  have hf : (connect true a).1.is_connected = true := by
    unfold connect
    simp [h]
  refine ⟨connect_true_no_error a, ?_, connect_already true _ hf⟩
  unfold connect
  simp [h]

/-- C3 witness: two successive `connect` calls on a concrete fresh
agent; the second returns the state of the first unchanged. -/
theorem C3_witness :
    connect true (connect true (initAgent "/agents/a3" none [])).1
      = ((connect true (initAgent "/agents/a3" none [])).1, none) :=
  (C3_connect_twice (initAgent "/agents/a3" none []) rfl).2.2

/-- C8: when the SDK handshake raises inside `connect`, the exception
propagates, the connected flag stays false, and a subsequent
`disconnect` changes nothing but the call counter — in particular it
never invokes the client teardown. -/
theorem C8_connect_failure (a : AgentState) (h : a.is_connected = false) :
    (connect false a).2 = some AgentErr.connectFailed ∧
    (connect false a).1.is_connected = false ∧
    disconnect (connect false a).1
      = { (connect false a).1 with
          disconnect_calls := (connect false a).1.disconnect_calls + 1 } := by
  have h2 : (connect false a).1.is_connected = false := by
    unfold connect
    simp [h]
  refine ⟨?_, h2, ?_⟩
  · unfold connect
    simp [h]
  · unfold disconnect
    simp [h2]

/-- C8 witness: a failing handshake on a concrete fresh agent
propagates the connection error. -/
theorem C8_witness :
    (connect false (initAgent "/agents/a8" none [])).2
      = some AgentErr.connectFailed :=
  (C8_connect_failure (initAgent "/agents/a8" none []) rfl).1

/-- C5: on a connected agent, `process_message` drains the stream and
returns exactly the assistant text blocks in stream order joined by
newlines, discarding tool-use blocks and result messages, and leaves
the agent state unchanged. -/
theorem C5_process_message_texts (ok : Bool) (stream : List Message) (m : String)
    (a : AgentState) (h : a.is_connected = true) (hc : a.client.isSome) :
    process_message ok stream m a
      = (a, Except.ok (String.intercalate "\n" (assistantTexts stream))) :=
  process_message_of_connected ok stream m a h hc

/-- C5 witness: a stream with assistant text blocks "A" and "B", a
tool-use block and a result message yields exactly "A\nB". -/
theorem C5_witness :
    (process_message true
        [Message.assistant [ContentBlock.text "A", ContentBlock.toolUse "x" "1"],
         Message.result (some 0) (some 12),
         Message.assistant [ContentBlock.text "B"]]
        "m" connectedAgent).2
      = Except.ok "A\nB" := by
  rw [C5_process_message_texts true
    [Message.assistant [ContentBlock.text "A", ContentBlock.toolUse "x" "1"],
     Message.result (some 0) (some 12),
     Message.assistant [ContentBlock.text "B"]]
    "m" connectedAgent (by decide) (by decide)]
  rfl

/-- C6: any input line whose stripped, lowercased form is one of the
sentinel strings terminates the interactive loop at once, issuing no
`query` call for that line. -/
theorem C6_sentinel_quits (line : String) (rest : List String) (q : Nat)
    (h : pyLower (pyStrip line) ∈ sentinels) :
    run_loop (line :: rest) q = (q, LoopExit.sentinel) := by
  simp only [run_loop]
  rw [if_pos h]

/-- C6 witness: the input "quit" ends the loop with zero queries. -/
theorem C6_witness : run_loop ["quit", "unreachable"] 0 = (0, LoopExit.sentinel) :=
  C6_sentinel_quits "quit" ["unreachable"] 0 (by decide)

/-- C10: an input line that strips to the empty string makes the loop
continue with the remaining inputs — no `query` call is issued for it
and the loop does not terminate on it. -/
theorem C10_blank_continue (line : String) (rest : List String) (q : Nat)
    (h : pyStrip line = "") :
    run_loop (line :: rest) q = run_loop rest q := by
  have hmem : ¬ pyLower "" ∈ sentinels := by decide
  simp only [run_loop, h]
  simp [hmem]

/-- C10 witness: a whitespace-only line is skipped and processing
continues with the rest of the inputs. -/
theorem C10_witness : run_loop ["   ", "hello"] 0 = run_loop ["hello"] 0 :=
  C10_blank_continue "   " ["hello"] 0 (by decide)

/-- C1 counterexample: for an agent whose configuration sets the server
name `my-server`, the identifier actually appended is the fixed
`mcp__agent_tools__t`, not an identifier qualified by the configured
tool-server name as the claim prescribes — the spec-prescribed
identifier does not occur in the allowed-tools list at all. -/
theorem C1_refutation :
    (get_agent_options exampleAgent).1.allowed_tools
      = ["Read", "mcp__agent_tools__t"] ∧
    specQualifiedName exampleAgent.agent_config ⟨"t"⟩ = "mcp__my-server__t" ∧
    specQualifiedName exampleAgent.agent_config ⟨"t"⟩ ∉
      (get_agent_options exampleAgent).1.allowed_tools := by
  refine ⟨rfl, rfl, ?_⟩
  decide

/-- C1 amended: `get_agent_options` appends exactly one qualified
identifier per custom tool, but each is qualified by the fixed
mcp-servers mapping key `agent_tools` (`mcp__agent_tools__<tool>`)
regardless of the configured server name, which only names the server
object; with no custom tools the mapping is empty and the allowed-tools
list is exactly the statically configured one. -/
theorem C1_fixed_qualification (a : AgentState) :
    (get_agent_options a).1.allowed_tools
      = a.agent_config.allowed_tools.getD []
          ++ a.custom_tools.map (fun t => "mcp__agent_tools__" ++ t.name) ∧
    (a.custom_tools = [] → (get_agent_options a).1.mcp_servers = []) ∧
    (a.custom_tools ≠ [] →
      (get_agent_options a).1.mcp_servers.map Prod.fst = ["agent_tools"]) := by
  unfold get_agent_options qualifiedToolName
  by_cases h : a.custom_tools.isEmpty
  · have h' : a.custom_tools = [] := List.isEmpty_iff.mp h
    simp [h, h']
  · have h' : a.custom_tools ≠ [] := by
      intro hh
      exact h (by simp [hh])
    simp [h, h']

/-- C1 witness: the example agent has one custom tool, so the mapping
is keyed by the fixed name `agent_tools`. -/
theorem C1_fixed_qualification_witness :
    (get_agent_options exampleAgent).1.mcp_servers.map Prod.fst = ["agent_tools"] :=
  (C1_fixed_qualification exampleAgent).2.2 (by decide)

/-- C2: refuted on the code — `get_agent_options` mutates the stored
configuration through the aliased `allowed_tools` list, so on an agent
with a statically configured list and one custom tool two successive
calls leave the configuration grown by two qualified names and return
different options values (the second carries the duplicate). -/
theorem C2_options_mutation :
    exampleAgent.agent_config.allowed_tools = some ["Read"] ∧
    (get_agent_options (get_agent_options exampleAgent).2).2.agent_config.allowed_tools
      = some ["Read", "mcp__agent_tools__t", "mcp__agent_tools__t"] ∧
    (get_agent_options (get_agent_options exampleAgent).2).1.allowed_tools
      ≠ (get_agent_options exampleAgent).1.allowed_tools := by
  refine ⟨rfl, rfl, ?_⟩
  decide

/-- C4: the `async with` bracket on a successfully connecting agent
calls `disconnect` exactly once after the body, whether the body
returns normally or raises (the body outcome is passed through
unchanged), and the connected flag is false once the bracket exits. -/
theorem C4_bracket_disconnects (a : AgentState)
    (body : AgentState → AgentState × BodyOutcome)
    (hb : ∀ s, ConnInv s → ConnInv (body s).1) (ha : ConnInv a) :
    (withBracket true body a).1.is_connected = false ∧
    (withBracket true body a).1.disconnect_calls
      = (body (connect true a).1).1.disconnect_calls + 1 ∧
    (withBracket true body a).2.2 = (body (connect true a).1).2 := by
  have h₁ : ConnInv (connect true a).1 := connect_inv true a ha
  have h₂ : ConnInv (body (connect true a).1).1 := hb _ h₁
  have he := connect_true_no_error a
  unfold withBracket
  rcases hconn : connect true a with ⟨a₁, e⟩
  rw [hconn] at he h₁ h₂
  subst he
  exact ⟨disconnect_flag _ h₂, disconnect_calls_succ _, rfl⟩

/-- C4 witness: a body that raises still leaves the bracket with the
connected flag cleared. -/
theorem C4_witness :
    (withBracket true (fun s => (s, BodyOutcome.raised))
        (initAgent "/agents/a4" none [])).1.is_connected = false :=
  (C4_bracket_disconnects (initAgent "/agents/a4" none [])
      (fun s => (s, BodyOutcome.raised)) (fun _ hs => hs) (by decide)).1

/-- C9: the flag/client invariant — whenever the connected flag is up
the client field is set — holds initially and is preserved by
`connect`, `disconnect`, `query`, `process_message` and the bracket
(for bodies that preserve it); consequently `query` on a connected
agent never hits the null-client dereference. -/
theorem C9_flag_client_invariant :
    (∀ dir file tools, ConnInv (initAgent dir file tools)) ∧
    (∀ ok a, ConnInv a → ConnInv (connect ok a).1) ∧
    (∀ a, ConnInv a → ConnInv (disconnect a)) ∧
    (∀ ok stream m a, ConnInv a → ConnInv (query ok stream m a).1) ∧
    (∀ ok stream m a, ConnInv a → ConnInv (process_message ok stream m a).1) ∧
    (∀ ok body a, ConnInv a → (∀ s, ConnInv s → ConnInv (body s).1) →
      ConnInv (withBracket ok body a).1) ∧
    (∀ ok stream m a, ConnInv a → a.is_connected = true →
      (query ok stream m a).2 ≠ Except.error AgentErr.nullClient) := by
  refine ⟨?_, connect_inv, disconnect_inv, query_inv, process_message_inv,
    withBracket_inv, ?_⟩
  · intro dir file tools h
    simp [initAgent] at h
  · intro ok stream m a ha h
    rw [query_of_connected ok stream m a h (ha h)]
    simp

/-- C9 witness: on a concretely connected agent, `query` succeeds
without a null-client dereference. -/
theorem C9_witness :
    (query true [] "ping" connectedAgent).2 ≠ Except.error AgentErr.nullClient :=
  C9_flag_client_invariant.2.2.2.2.2.2 true [] "ping" connectedAgent
    (by decide) (by decide)
